import Mathlib

/-!
Verification development for the ForceUMI data-collection pipeline.

Shallow embedding of the core components, translated from the Python
sources:
  - the bounded single-slot hand-off queue used by `DataCollector`
    (`forceumi/collector.py`, `queue.Queue(maxsize=1)` with `put_nowait`
    guarded by `except queue.Full: pass`, and `get_latest_frame`);
  - the `Episode` container (`forceumi/data/episode.py`);
  - the HDF5 persistence layer (`forceumi/data/hdf5_manager.py`),
    with the file system abstracted as a map from paths to files and an
    HDF5 file as a record of optional named arrays plus attributes;
  - the per-cycle timing discipline of `DataCollector._collection_loop`
    (`forceumi/collector.py`), modelled as the ordered sequence of clock
    readings and device-read intervals of one poll cycle;
  - the replay engine (`forceumi/replay/player.py`, `EpisodePlayer`);
  - the coordinate transforms (`forceumi/utils/transforms.py`), over ℝ.

Wall-clock instants and float scalars carried through the pipeline are
modelled as exact rationals (`ℚ`); the trigonometric transforms are
modelled over the real numbers (`ℝ`).
-/

namespace ForceUMI

/-! ## The bounded single-slot hand-off queue

`DataCollector` creates `self._data_queue = queue.Queue(maxsize=1)`.
The producer side does

    try:
        self._data_queue.put_nowait(frame_data)
    except queue.Full:
        pass  # Skip if queue is full

and the consumer side (`get_latest_frame`) repeatedly calls
`get_nowait()` until the queue is empty, keeping the last value obtained.
A `queue.Queue` is a FIFO list bounded by `maxsize`; `put_nowait` on a
full queue raises `Full` (so the new element is discarded), and
`get_nowait` pops the front. -/

/-- The queue bound: `queue.Queue(maxsize=1)` in `DataCollector.__init__`. -/
def qmaxsize : ℕ := 1

/-- Producer push, from `DataCollector._collection_loop`:
`put_nowait` wrapped in `except queue.Full: pass`.  If the queue has
room the value is appended; if it is full the exception path discards
the new value and leaves the queue unchanged. -/
def put_nowait_or_skip {α : Type} (q : List α) (x : α) : List α :=
  if q.length < qmaxsize then q ++ [x] else q

/-- One `get_nowait()` call: pop the front element, or report empty. -/
def get_nowait {α : Type} (q : List α) : Option α × List α :=
  match q with
  | [] => (none, [])
  | x :: rest => (some x, rest)

/-- The drain loop inside `DataCollector.get_latest_frame`: keep calling
`get_nowait` until `queue.Empty`, remembering the most recent value. -/
def drain_latest {α : Type} : List α → Option α → Option α × List α
  | [], acc => (acc, [])
  | x :: rest, _ => drain_latest rest (some x)

/-- `DataCollector.get_latest_frame`: drains the queue and returns the
last frame obtained (`none` if the queue was empty), paired with the
queue contents afterwards. -/
def get_latest_frame {α : Type} (q : List α) : Option α × List α :=
  drain_latest q none

/-! ## Metadata

`Episode.metadata` is a Python dict from string keys to heterogeneous
values; the values written by the pipeline are floats, ints and
strings. -/

/-- A metadata value: float (modelled as `ℚ`), int, or string. -/
inductive MVal : Type
  | rat (q : ℚ)
  | int (z : ℤ)
  | str (s : String)
deriving DecidableEq

/-- A metadata map. -/
def Metadata : Type := String → Option MVal

/-- `dict.update` / `dict[k] = v` for a single key. -/
def Metadata.update (m : Metadata) (k : String) (v : MVal) : Metadata :=
  fun k' => if k' = k then some v else m k'

/-- The empty metadata map. -/
def Metadata.empty : Metadata := fun _ => none

/-! ## Episode (`forceumi/data/episode.py`)

The `Episode` dataclass.  The per-modality array element types are
abstract (`numpy` arrays in the source), so the container is generic
over them.  `start_time` is set by `__post_init__` from the clock, so
the constructor here takes the creation instant. -/

/-- The `Episode` dataclass: per-field lists, per-sensor timestamp
lists, metadata, and the start/end instants. -/
structure Episode (Img St Ac Fo : Type) where
  images : List Img
  states : List St
  actions : List Ac
  forces : List Fo
  timestamps : List ℚ
  timestamps_camera : List ℚ
  timestamps_pose : List ℚ
  timestamps_force : List ℚ
  metadata : Metadata
  start_time : ℚ
  end_time : Option ℚ

/-- `Episode()` at clock instant `now`: all lists empty, no end time
(`__post_init__` stamps `start_time`). -/
def Episode.init {Img St Ac Fo : Type} (now : ℚ) : Episode Img St Ac Fo :=
  { images := [], states := [], actions := [], forces := []
    timestamps := [], timestamps_camera := [], timestamps_pose := []
    timestamps_force := [], metadata := Metadata.empty
    start_time := now, end_time := none }

/-- `Episode.add_frame`.  Each argument is optional; `timestamp`
defaults to the current clock reading `now`.  A present image appends
to `images` and to `timestamps_camera` (falling back to the loop
timestamp when no camera timestamp was given), and similarly for
state/pose and force; a present action appends to `actions`; the loop
timestamp is always appended. -/
def Episode.add_frame {Img St Ac Fo : Type} (e : Episode Img St Ac Fo)
    (image : Option Img) (state : Option St) (action : Option Ac) (force : Option Fo)
    (timestamp : Option ℚ)
    (timestamp_camera timestamp_pose timestamp_force : Option ℚ)
    (now : ℚ) : Episode Img St Ac Fo :=
  let ts := timestamp.getD now
  let e1 := match image with
    | some img =>
        { e with images := e.images ++ [img]
                 timestamps_camera := e.timestamps_camera ++ [timestamp_camera.getD ts] }
    | none => e
  let e2 := match state with
    | some st =>
        { e1 with states := e1.states ++ [st]
                  timestamps_pose := e1.timestamps_pose ++ [timestamp_pose.getD ts] }
    | none => e1
  let e3 := match action with
    | some ac => { e2 with actions := e2.actions ++ [ac] }
    | none => e2
  let e4 := match force with
    | some fo =>
        { e3 with forces := e3.forces ++ [fo]
                  timestamps_force := e3.timestamps_force ++ [timestamp_force.getD ts] }
    | none => e3
  { e4 with timestamps := e4.timestamps ++ [ts] }

/-- `Episode.finalize` at clock instant `now`: stamps `end_time` and
writes the summary metadata (`start_time`, `end_time`, `duration`,
`num_frames`, `fps`).  The source guards nothing here: every call
re-stamps. -/
def Episode.finalize {Img St Ac Fo : Type} (e : Episode Img St Ac Fo)
    (now : ℚ) : Episode Img St Ac Fo :=
  { e with
    end_time := some now
    metadata :=
      ((((e.metadata.update "start_time" (.rat e.start_time)).update
          "end_time" (.rat now)).update
          "duration" (.rat (now - e.start_time))).update
          "num_frames" (.int e.timestamps.length)).update
          "fps" (if e.start_time < now
                 then .rat ((e.timestamps.length : ℚ) / (now - e.start_time))
                 else .rat 0) }

/-- The guard in `DataCollector.save_current_episode`:
`if self.current_episode.end_time is None: self.current_episode.finalize()`. -/
def Episode.finalize_if_needed {Img St Ac Fo : Type} (e : Episode Img St Ac Fo)
    (now : ℚ) : Episode Img St Ac Fo :=
  if e.end_time = none then e.finalize now else e

/-- The per-modality length invariant of an `Episode` (spec §3): each
per-sensor timestamp list is exactly as long as its modality's data
list, and no longer than the loop-timestamp list. -/
def EpisodeInv {Img St Ac Fo : Type} (e : Episode Img St Ac Fo) : Prop :=
  e.timestamps_camera.length = e.images.length ∧
  e.timestamps_pose.length = e.states.length ∧
  e.timestamps_force.length = e.forces.length ∧
  e.timestamps_camera.length ≤ e.timestamps.length ∧
  e.timestamps_pose.length ≤ e.timestamps.length ∧
  e.timestamps_force.length ≤ e.timestamps.length

instance {Img St Ac Fo : Type} (e : Episode Img St Ac Fo) :
    Decidable (EpisodeInv e) := by
  unfold EpisodeInv
  infer_instance

/-! ## Episode dictionary form and HDF5 persistence -/

/-- The output of `Episode.to_dict`: the five main arrays are always
present (empty when no data), the per-sensor timestamp arrays are added
only when non-empty. -/
structure EpisodeDict (Img St Ac Fo : Type) where
  image : List Img
  state : List St
  action : List Ac
  force : List Fo
  timestamp : List ℚ
  timestamp_camera : Option (List ℚ)
  timestamp_pose : Option (List ℚ)
  timestamp_force : Option (List ℚ)
  metadata : Metadata

/-- `Episode.to_dict`. -/
def Episode.to_dict {Img St Ac Fo : Type} (e : Episode Img St Ac Fo) :
    EpisodeDict Img St Ac Fo :=
  { image := e.images, state := e.states, action := e.actions, force := e.forces
    timestamp := e.timestamps
    timestamp_camera := if e.timestamps_camera.isEmpty then none else some e.timestamps_camera
    timestamp_pose := if e.timestamps_pose.isEmpty then none else some e.timestamps_pose
    timestamp_force := if e.timestamps_force.isEmpty then none else some e.timestamps_force
    metadata := e.metadata }

/-- An HDF5 episode file: optional named datasets plus scalar
attributes (`forceumi/data/hdf5_manager.py`). -/
structure HFile (Img St Ac Fo : Type) where
  image : Option (List Img)
  state : Option (List St)
  action : Option (List Ac)
  force : Option (List Fo)
  timestamp : Option (List ℚ)
  timestamp_camera : Option (List ℚ)
  timestamp_pose : Option (List ℚ)
  timestamp_force : Option (List ℚ)
  attrs : Metadata

/-- The file system, abstracted as a map from paths to files. -/
def FileSystem (Img St Ac Fo : Type) : Type := String → Option (HFile Img St Ac Fo)

/-- `HDF5Manager.save_episode`.  Fails (returns `false`, file system
untouched) when the destination exists and `overwrite` is false;
otherwise writes each array that is present and non-empty as a dataset,
and the metadata as attributes, returning `true`. -/
def save_episode {Img St Ac Fo : Type} (fs : FileSystem Img St Ac Fo)
    (filepath : String) (data : EpisodeDict Img St Ac Fo) (overwrite : Bool) :
    Bool × FileSystem Img St Ac Fo :=
  if (fs filepath).isSome && !overwrite then
    (false, fs)
  else
    let file : HFile Img St Ac Fo :=
      { image := if 0 < data.image.length then some data.image else none
        state := if 0 < data.state.length then some data.state else none
        action := if 0 < data.action.length then some data.action else none
        force := if 0 < data.force.length then some data.force else none
        timestamp := if 0 < data.timestamp.length then some data.timestamp else none
        timestamp_camera := match data.timestamp_camera with
          | some l => if 0 < l.length then some l else none
          | none => none
        timestamp_pose := match data.timestamp_pose with
          | some l => if 0 < l.length then some l else none
          | none => none
        timestamp_force := match data.timestamp_force with
          | some l => if 0 < l.length then some l else none
          | none => none
        attrs := data.metadata }
    (true, fun p => if p = filepath then some file else fs p)

/-- `HDF5Manager.load_episode`.  `none` when the file is absent; each
absent main dataset is returned as the empty array, per-sensor
timestamp datasets are loaded only when present. -/
def load_episode {Img St Ac Fo : Type} (fs : FileSystem Img St Ac Fo)
    (filepath : String) : Option (EpisodeDict Img St Ac Fo) :=
  match fs filepath with
  | none => none
  | some f => some
      { image := f.image.getD [], state := f.state.getD []
        action := f.action.getD [], force := f.force.getD []
        timestamp := f.timestamp.getD []
        timestamp_camera := f.timestamp_camera
        timestamp_pose := f.timestamp_pose
        timestamp_force := f.timestamp_force
        metadata := f.attrs }

/-! ## Timing of one collection cycle

`DataCollector._collection_loop` performs, in program order within one
cycle (clock readings via `time.time()`):

  1. `start_time = time.time()`                         -- `tStart`
  2. `timestamp = time.time()`  (the loop timestamp)    -- `tLoop`
  3. camera branch: `timestamp_camera = time.time()`    -- `tCamStamp`
     then `image = self.camera.read()` occupying the
     interval `[tCamIssue, tCamReturn]`
  4. pose branch: `state = self.pose_sensor.read()`
     occupying `[tPoseIssue, tPoseReturn]`, then
     `timestamp_pose = time.time()`                     -- `tPoseStamp`
  5. force branch: `force = self.force_sensor.read()`
     occupying `[tForceIssue, tForceReturn]`, then
     `timestamp_force = time.time()`                    -- `tForceStamp`

The clock is monotone, so program order gives the chain recorded in
`order`. -/

/-- The clock instants of one poll cycle of `_collection_loop`, in
program order. -/
structure CycleTrace where
  tStart : ℚ
  tLoop : ℚ
  tCamStamp : ℚ
  tCamIssue : ℚ
  tCamReturn : ℚ
  tPoseIssue : ℚ
  tPoseReturn : ℚ
  tPoseStamp : ℚ
  tForceIssue : ℚ
  tForceReturn : ℚ
  tForceStamp : ℚ
  order : tStart ≤ tLoop ∧ tLoop ≤ tCamStamp ∧ tCamStamp ≤ tCamIssue ∧
    tCamIssue ≤ tCamReturn ∧ tCamReturn ≤ tPoseIssue ∧ tPoseIssue ≤ tPoseReturn ∧
    tPoseReturn ≤ tPoseStamp ∧ tPoseStamp ≤ tForceIssue ∧ tForceIssue ≤ tForceReturn ∧
    tForceReturn ≤ tForceStamp

/-- The camera acquisition timestamp recorded with the cycle's frame:
`frame_data["timestamp_camera"] = timestamp_camera`, taken at line
`timestamp_camera = time.time()` which precedes `self.camera.read()`. -/
def CycleTrace.recorded_camera_timestamp (c : CycleTrace) : ℚ := c.tCamStamp

/-- The pose acquisition timestamp recorded with the cycle's frame:
taken by `timestamp_pose = time.time()` after `self.pose_sensor.read()`
returns. -/
def CycleTrace.recorded_pose_timestamp (c : CycleTrace) : ℚ := c.tPoseStamp

/-- The force acquisition timestamp recorded with the cycle's frame:
taken by `timestamp_force = time.time()` after
`self.force_sensor.read()` returns. -/
def CycleTrace.recorded_force_timestamp (c : CycleTrace) : ℚ := c.tForceStamp

/-- A concrete cycle in which the camera read takes one time unit. -/
def slowCameraCycle : CycleTrace :=
  { tStart := 0, tLoop := 0, tCamStamp := 1, tCamIssue := 1, tCamReturn := 2
    tPoseIssue := 3, tPoseReturn := 4, tPoseStamp := 4
    tForceIssue := 5, tForceReturn := 6, tForceStamp := 6
    order := by norm_num }

/-! ## Replay engine (`forceumi/replay/player.py`) -/

/-- The mutable state of an `EpisodePlayer`: the loaded arrays (absent
datasets are `none`) and the playback state. -/
structure PlayerState (Img St Ac Fo : Type) where
  images : Option (List Img)
  states : Option (List St)
  actions : Option (List Ac)
  forces : Option (List Fo)
  timestamps : Option (List ℚ)
  current_frame : ℕ
  total_frames : ℕ
  is_playing : Bool
  playback_speed : ℚ
  loop : Bool
  last_frame_time : ℚ
  target_fps : ℚ

/-- The dictionary returned by `EpisodePlayer.get_frame`. -/
structure FrameData (Img St Ac Fo : Type) where
  frame_idx : ℤ
  image : Option Img
  state : Option St
  action : Option Ac
  force : Option Fo
  timestamp : Option ℚ

/-- One field lookup inside the `try` block of `get_frame`.  `ok` is
false once a previous lookup has raised `IndexError`: the remaining
fields of the dictionary are then never assigned.  An absent array
(`None` in the source) yields `None` for the field without raising. -/
def readField {α : Type} (ok : Bool) (arr : Option (List α)) (i : ℕ) :
    Option α × Bool :=
  if ok then
    match arr with
    | none => (none, true)
    | some l =>
      match l[i]? with
      | some v => (some v, true)
      | none => (none, false)
  else (none, false)

/-- The clamp in `get_frame` and `seek`:
`max(0, min(frame_idx, total_frames - 1))` on Python integers. -/
def clampedIndex (total_frames : ℕ) (frame_idx : ℤ) : ℤ :=
  max 0 (min frame_idx ((total_frames : ℤ) - 1))

/-- `EpisodePlayer.get_frame`: clamps the requested index to
`[0, total_frames - 1]`, then fills the dictionary field by field
inside a `try`/`except` that swallows any `IndexError`. -/
def PlayerState.get_frame {Img St Ac Fo : Type} (s : PlayerState Img St Ac Fo)
    (frame_idx : ℤ) : FrameData Img St Ac Fo :=
  let clamped : ℤ := clampedIndex s.total_frames frame_idx
  let i : ℕ := clamped.toNat
  let r1 := readField true s.images i
  let r2 := readField r1.2 s.states i
  let r3 := readField r2.2 s.actions i
  let r4 := readField r3.2 s.forces i
  let r5 := readField r4.2 s.timestamps i
  { frame_idx := clamped, image := r1.1, state := r2.1, action := r3.1
    force := r4.1, timestamp := r5.1 }

/-- The frame interval computed by `EpisodePlayer.update`: the recorded
inter-frame timestamp difference when timestamps are present and the
player is not at the last timestamp, else `1 / target_fps`; divided by
the speed multiplier.  (`current_frame < len(timestamps) - 1` on
Python ints agrees with the truncated ℕ subtraction here because
`current_frame ≥ 0`.) -/
def PlayerState.frame_interval {Img St Ac Fo : Type}
    (s : PlayerState Img St Ac Fo) : ℚ :=
  match s.timestamps with
  | some ts =>
    if s.current_frame < ts.length - 1 then
      (ts.getD (s.current_frame + 1) 0 - ts.getD s.current_frame 0) / s.playback_speed
    else (1 / s.target_fps) / s.playback_speed
  | none => (1 / s.target_fps) / s.playback_speed

/-- `EpisodePlayer.update`.  `now` is the `time.time()` reading taken
on entry (`current_time`); `now2` is the later `time.time()` reading
used to reset the anchor when looping back to frame 0.  Returns the new
state and the emitted frame, if any.  When paused, nothing happens.
Otherwise, once `elapsed ≥ frame_interval`: the anchor advances by the
computed interval (resynchronised to `now` if more than two intervals
behind), the current frame is emitted, and the index advances — at the
end of the episode it either wraps to 0 (loop) or the player pauses and
the index is clamped to the final frame. -/
def PlayerState.update {Img St Ac Fo : Type} (s : PlayerState Img St Ac Fo)
    (now now2 : ℚ) : PlayerState Img St Ac Fo × Option (FrameData Img St Ac Fo) :=
  if s.is_playing = false then (s, none)
  else
    let elapsed := now - s.last_frame_time
    let interval := s.frame_interval
    if interval ≤ elapsed then
      let lft1 := s.last_frame_time + interval
      let lft2 := if interval * 2 < now - lft1 then now else lft1
      let fd := s.get_frame (s.current_frame : ℤ)
      let cf1 := s.current_frame + 1
      let s' :=
        if s.total_frames ≤ cf1 then
          if s.loop then
            { s with current_frame := 0, last_frame_time := now2 }
          else
            { s with is_playing := false, current_frame := s.total_frames - 1
                     last_frame_time := lft2 }
        else { s with current_frame := cf1, last_frame_time := lft2 }
      (s', some fd)
    else (s, none)

/-! ## Coordinate transforms (`forceumi/utils/transforms.py`)

Pure math over the reals.  `numpy.arctan2(y, x)` is modelled by
`atan2` below with the standard quadrant conventions. -/

open Real in
/-- `numpy.arctan2 y x`: the angle of the point `(x, y)` in
`(-π, π]`, with `atan2 0 0 = 0`. -/
noncomputable def atan2 (y x : ℝ) : ℝ :=
  if 0 < x then Real.arctan (y / x)
  else if x < 0 then
    (if 0 ≤ y then Real.arctan (y / x) + π else Real.arctan (y / x) - π)
  else
    (if 0 < y then π / 2 else if y < 0 then -(π / 2) else 0)

/-- `euler_to_matrix(roll, pitch, yaw)`: `R = R_z * R_y * R_x`. -/
noncomputable def euler_to_matrix (roll pitch yaw : ℝ) :
    Matrix (Fin 3) (Fin 3) ℝ :=
  let R_x : Matrix (Fin 3) (Fin 3) ℝ :=
    Matrix.of ![![1, 0, 0],
                ![0, Real.cos roll, -Real.sin roll],
                ![0, Real.sin roll, Real.cos roll]]
  let R_y : Matrix (Fin 3) (Fin 3) ℝ :=
    Matrix.of ![![Real.cos pitch, 0, Real.sin pitch],
                ![0, 1, 0],
                ![-Real.sin pitch, 0, Real.cos pitch]]
  let R_z : Matrix (Fin 3) (Fin 3) ℝ :=
    Matrix.of ![![Real.cos yaw, -Real.sin yaw, 0],
                ![Real.sin yaw, Real.cos yaw, 0],
                ![0, 0, 1]]
  R_z * R_y * R_x

/-- The singularity threshold in `matrix_to_euler` (`1e-6`). -/
noncomputable def eulerSingularEps : ℝ := 1 / 1000000

/-- `matrix_to_euler(R) = (roll, pitch, yaw)`, ZYX convention with the
gimbal-lock-aware branch on `sy = sqrt(R₀₀² + R₁₀²)`. -/
noncomputable def matrix_to_euler (R : Matrix (Fin 3) (Fin 3) ℝ) : ℝ × ℝ × ℝ :=
  let sy := Real.sqrt (R 0 0 ^ 2 + R 1 0 ^ 2)
  if sy < eulerSingularEps then
    (atan2 (-(R 1 2)) (R 1 1), atan2 (-(R 2 0)) sy, 0)
  else
    (atan2 (R 2 1) (R 2 2), atan2 (-(R 2 0)) sy, atan2 (R 1 0) (R 0 0))

/-- `euler_to_matrix` applied to a `(roll, pitch, yaw)` triple. -/
noncomputable def euler_to_matrix3 (e : ℝ × ℝ × ℝ) : Matrix (Fin 3) (Fin 3) ℝ :=
  euler_to_matrix e.1 e.2.1 e.2.2

/-- A 7-vector pose `[x, y, z, roll, pitch, yaw, gripper]`. -/
def Pose7 : Type := Fin 7 → ℝ

/-- The Z-rotation matrix built inside `rotate_frame_z_90_cw` from
`theta = -pi/2` (90° clockwise viewed from +z). -/
noncomputable def R_z_90cw_mat : Matrix (Fin 3) (Fin 3) ℝ :=
  let θ : ℝ := -(Real.pi / 2)
  Matrix.of ![![Real.cos θ, -Real.sin θ, 0],
              ![Real.sin θ, Real.cos θ, 0],
              ![0, 0, 1]]

/-- The Z-rotation matrix built inside `rotate_frame_z_90_ccw` from
`theta = pi/2` (90° counter-clockwise viewed from +z). -/
noncomputable def R_z_90ccw_mat : Matrix (Fin 3) (Fin 3) ℝ :=
  let θ : ℝ := Real.pi / 2
  Matrix.of ![![Real.cos θ, -Real.sin θ, 0],
              ![Real.sin θ, Real.cos θ, 0],
              ![0, 0, 1]]

/-- `rotate_frame_z_90_cw(pose, preserve_gripper)`: position
`(x, y) ↦ (y, -x)`, orientation pre-multiplied by the clockwise
Z-rotation, gripper copied unchanged (the `preserve_gripper` branch
re-assigns the value the copy already holds). -/
noncomputable def rotate_frame_z_90_cw (pose : Pose7) (_preserve_gripper : Bool) :
    Pose7 :=
  let R := euler_to_matrix (pose 3) (pose 4) (pose 5)
  let R_new := R_z_90cw_mat * R
  let e := matrix_to_euler R_new
  ![pose 1, -(pose 0), pose 2, e.1, e.2.1, e.2.2, pose 6]

/-- `rotate_frame_z_90_ccw(pose, preserve_gripper)`: position
`(x, y) ↦ (-y, x)`, orientation pre-multiplied by the counter-clockwise
Z-rotation, gripper copied unchanged. -/
noncomputable def rotate_frame_z_90_ccw (pose : Pose7) (_preserve_gripper : Bool) :
    Pose7 :=
  let R := euler_to_matrix (pose 3) (pose 4) (pose 5)
  let R_new := R_z_90ccw_mat * R
  let e := matrix_to_euler R_new
  ![-(pose 1), pose 0, pose 2, e.1, e.2.1, e.2.2, pose 6]

/-- `pose_to_matrix`: pack a 6-vector pose into a 4×4 homogeneous
transform. -/
noncomputable def pose_to_matrix (p : Fin 6 → ℝ) : Matrix (Fin 4) (Fin 4) ℝ :=
  let R := euler_to_matrix (p 3) (p 4) (p 5)
  Matrix.of fun i j =>
    if hi : (i : ℕ) < 3 then
      if hj : (j : ℕ) < 3 then R ⟨i, hi⟩ ⟨j, hj⟩
      else p ⟨i, by omega⟩
    else if (j : ℕ) < 3 then 0 else 1

/-- `matrix_to_pose`: unpack a 4×4 homogeneous transform into a
6-vector pose. -/
noncomputable def matrix_to_pose (T : Matrix (Fin 4) (Fin 4) ℝ) : Fin 6 → ℝ :=
  let e := matrix_to_euler (Matrix.of fun i j : Fin 3 =>
    T ⟨i, by omega⟩ ⟨j, by omega⟩)
  ![T 0 3, T 1 3, T 2 3, e.1, e.2.1, e.2.2]

/-- `inverse_transform`: closed-form rigid-body inverse
`[Rᵀ, -Rᵀ t; 0, 1]`. -/
noncomputable def inverse_transform (T : Matrix (Fin 4) (Fin 4) ℝ) :
    Matrix (Fin 4) (Fin 4) ℝ :=
  let R := Matrix.of fun i j : Fin 3 => T ⟨i, by omega⟩ ⟨j, by omega⟩
  let t : Fin 3 → ℝ := fun i => T ⟨i, by omega⟩ 3
  Matrix.of fun i j =>
    if hi : (i : ℕ) < 3 then
      if hj : (j : ℕ) < 3 then R.transpose ⟨i, hi⟩ ⟨j, hj⟩
      else -((R.transpose).mulVec t ⟨i, hi⟩)
    else if (j : ℕ) < 3 then 0 else 1

/-- `transform_pose(pose, reference_pose)`:
`matrix_to_pose(inverse_transform(T_ref) * T_pose)`. -/
noncomputable def transform_pose (pose reference_pose : Fin 6 → ℝ) : Fin 6 → ℝ :=
  matrix_to_pose (inverse_transform (pose_to_matrix reference_pose) *
    pose_to_matrix pose)

/-- `relative_pose(pose, reference_pose, preserve_gripper=True)` on
7-vector poses, as called by the collector: relative 6-D pose with the
absolute gripper value appended. -/
noncomputable def relative_pose (pose reference_pose : Pose7) : Pose7 :=
  let rel := transform_pose (fun i => pose ⟨i, by omega⟩)
    (fun i => reference_pose ⟨i, by omega⟩)
  ![rel 0, rel 1, rel 2, rel 3, rel 4, rel 5, pose 6]

/-! ## Action derivation in the collection loop

`forceumi/collector.py` line 20 fixes the frame-alignment rotation:
`rotate_to_force_frame = rotate_frame_z_90_cw`.  Lines 285-307 derive
the action for a cycle with a valid pose reading. -/

/-- The module-level choice `rotate_to_force_frame = rotate_frame_z_90_cw`. -/
noncomputable def rotate_to_force_frame : Pose7 → Bool → Pose7 :=
  rotate_frame_z_90_cw

/-- The action computed for the first valid pose reading after warm-up
(`_reference_pose is None` branch): `action = state.copy();
action[:6] = 0.0; action = rotate_to_force_frame(action,
preserve_gripper=True)`. -/
noncomputable def collector_first_action (state : Pose7) : Pose7 :=
  rotate_to_force_frame (fun i => if (i : ℕ) < 6 then 0 else state i) true

/-- The action branch of `_collection_loop` for a cycle with a valid
pose reading `state`: given the warm-up flag and the current reference
pose, returns the new reference pose and the action (if any) placed in
`frame_data`.  During warm-up nothing is set; on the first valid
post-warm-up reading the state becomes the reference and the zeroed
rotated action is emitted; afterwards the rotated relative pose is
emitted. -/
noncomputable def compute_action (warming_up : Bool) (reference_pose : Option Pose7)
    (state : Pose7) : Option Pose7 × Option Pose7 :=
  if warming_up then (reference_pose, none)
  else
    match reference_pose with
    | none => (some state, some (collector_first_action state))
    | some ref =>
        (some ref, some (rotate_to_force_frame (relative_pose state ref) true))

/-! ## Concrete instances used below -/

/-- An empty HDF5 file (no datasets, no attributes). -/
def emptyHFile : HFile ℕ ℕ ℕ ℕ :=
  { image := none, state := none, action := none, force := none
    timestamp := none, timestamp_camera := none, timestamp_pose := none
    timestamp_force := none, attrs := Metadata.empty }

/-- A file system holding one file, at path `"a"`. -/
def fsWithA : FileSystem ℕ ℕ ℕ ℕ :=
  fun p => if p = "a" then some emptyHFile else none

/-- A file system with no files. -/
def emptyFS : FileSystem ℕ ℕ ℕ ℕ := fun _ => none

/-- An empty episode dictionary. -/
def emptyDict : EpisodeDict ℕ ℕ ℕ ℕ :=
  { image := [], state := [], action := [], force := [], timestamp := []
    timestamp_camera := none, timestamp_pose := none, timestamp_force := none
    metadata := Metadata.empty }

/-- An episode recorded with 0 camera frames, 5 pose frames and 5 force
frames: five `add_frame` calls, each carrying a state and a force but no
image. -/
def fivePoseForceEpisode : Episode ℕ ℕ ℕ ℕ :=
  ((((((Episode.init 0).add_frame none (some 10) none (some 20) (some 1) none (some 1) (some 1) 1
    ).add_frame none (some 11) none (some 21) (some 2) none (some 2) (some 2) 2
    ).add_frame none (some 12) none (some 22) (some 3) none (some 3) (some 3) 3
    ).add_frame none (some 13) none (some 23) (some 4) none (some 4) (some 4) 4
    ).add_frame none (some 14) none (some 24) (some 5) none (some 5) (some 5) 5)

/-- A playing two-frame player positioned on the last frame,
`loop = False`, with enough wall-clock time elapsed to advance. -/
def lastFramePlayer : PlayerState ℕ ℕ ℕ ℕ :=
  { images := some [7, 8], states := none, actions := none, forces := none
    timestamps := some [0, 1], current_frame := 1, total_frames := 2
    is_playing := true, playback_speed := 1, loop := false
    last_frame_time := 0, target_fps := 30 }

/-- The same player with `loop = True`. -/
def lastFrameLoopPlayer : PlayerState ℕ ℕ ℕ ℕ :=
  { lastFramePlayer with loop := true }

/-- A three-frame player with uniform-length arrays, used to exercise
`get_frame` clamping on out-of-range indices. -/
def threeFramePlayer : PlayerState ℕ ℕ ℕ ℕ :=
  { images := some [3, 4, 5], states := some [6, 7, 8], actions := none
    forces := some [9, 10, 11], timestamps := some [0, 1, 2]
    current_frame := 0, total_frames := 3, is_playing := false
    playback_speed := 1, loop := false, last_frame_time := 0, target_fps := 30 }

/-- The pose reading used to refute the claimed all-zero first action:
arbitrary position, zero orientation, gripper `1/2`. -/
noncomputable def c2pose : Pose7 := ![1, 2, 3, 0, 0, 0, 1/2]

/-- A pose whose roll angle `7` lies outside the principal range
`(-π, π]`; its orientation is non-singular. -/
noncomputable def c8pose : Pose7 := ![0, 0, 0, 7, 0, 0, 1/2]

/-- A pose with principal-range (zero) Euler angles, used as the
round-trip witness. -/
noncomputable def c8witnessPose : Pose7 := ![1, 2, 3, 0, 0, 0, 5]

/-! ## Helper lemmas -/

/-- The drain loop always leaves the queue empty. -/
theorem drain_latest_snd {α : Type} (q : List α) (acc : Option α) :
    (drain_latest q acc).2 = [] := by
  induction q generalizing acc with
  | nil => rfl
  | cons x rest ih => exact ih (some x)

/-! ## C1: behaviour of the single-slot hand-off queue -/

/-- C1 (counterexample): pushing frame `1` while frame `0` is still
pending does not evict the pending frame.  The queue keeps `0`, the new
frame `1` is discarded, and a consumer that subsequently pulls receives
`0` — the oldest pushed frame, not the newest. -/
theorem queue_push_counterexample :
    put_nowait_or_skip (put_nowait_or_skip ([] : List ℕ) 0) 1 = [0] ∧
    put_nowait_or_skip (put_nowait_or_skip ([] : List ℕ) 0) 1 ≠ [1] ∧
    (get_latest_frame (put_nowait_or_skip (put_nowait_or_skip ([] : List ℕ) 0) 1)).1 = some 0 ∧
    (some 0 : Option ℕ) ≠ some 1 := by
  decide

/-- C1 (amended): the push onto the single-slot queue never blocks and
never raises, and fills an empty slot; but when a pending unread frame
occupies the slot the *new* frame is discarded and the slot keeps the
pending (oldest) frame, so a consumer that drains via
`get_latest_frame` receives the oldest unread pushed frame.  After a
drain, the next push is delivered to the consumer. -/
theorem queue_push_keeps_pending {α : Type} :
    (∀ x : α, put_nowait_or_skip ([] : List α) x = [x]) ∧
    (∀ x y : α, put_nowait_or_skip [x] y = [x]) ∧
    (∀ x y : α,
      (get_latest_frame (put_nowait_or_skip (put_nowait_or_skip [] x) y)).1 = some x) ∧
    (∀ (q : List α) (y : α),
      (get_latest_frame (put_nowait_or_skip (get_latest_frame q).2 y)).1 = some y) := by
  refine ⟨fun x => rfl, fun x y => rfl, fun x y => rfl, fun q y => ?_⟩
  have h : (get_latest_frame q).2 = [] := drain_latest_snd q none
  rw [h]
  rfl

/-! ## C5: `Episode.finalize` is not idempotent-guarded -/

/-- C5 (counterexample): calling `finalize` a second time, at a later
clock instant, re-stamps the end time (and hence the summary metadata):
on an episode created at time 0 and finalized at time 1, a second
`finalize` at time 2 moves `end_time` from 1 to 2 and the recorded
`duration` from 1 to 2. -/
theorem finalize_restamps_counterexample :
    (((Episode.init 0 : Episode ℕ ℕ ℕ ℕ).finalize 1).finalize 2).end_time = some 2 ∧
    ((Episode.init 0 : Episode ℕ ℕ ℕ ℕ).finalize 1).end_time = some 1 ∧
    (((Episode.init 0 : Episode ℕ ℕ ℕ ℕ).finalize 1).finalize 2).end_time ≠
      ((Episode.init 0 : Episode ℕ ℕ ℕ ℕ).finalize 1).end_time ∧
    (((Episode.init 0 : Episode ℕ ℕ ℕ ℕ).finalize 1).finalize 2).metadata "duration" =
      some (.rat 2) ∧
    ((Episode.init 0 : Episode ℕ ℕ ℕ ℕ).finalize 1).metadata "duration" =
      some (.rat 1) := by
  refine ⟨rfl, rfl, by decide, ?_, ?_⟩ <;>
    · norm_num [Episode.finalize, Episode.init, Metadata.update, Metadata.empty]
      rfl

/-- C5 (amended): `Episode.finalize` itself re-stamps the end time on
every call; the idempotence guard lives in the save path
(`save_current_episode` re-finalizes only when `end_time` is unset), so
a guarded re-finalize leaves an already-finalized episode — end time
and summary metadata included — unchanged. -/
theorem finalize_guarded_in_caller {Img St Ac Fo : Type} :
    (∀ (e : Episode Img St Ac Fo) (t1 t2 : ℚ),
      (e.finalize t1).finalize_if_needed t2 = e.finalize t1) ∧
    (∀ (e : Episode Img St Ac Fo) (t1 t2 : ℚ),
      ((e.finalize t1).finalize t2).end_time = some t2) := by
  constructor
  · intro e t1 t2
    simp [Episode.finalize_if_needed, Episode.finalize]
  · intro e t1 t2
    rfl

/-! ## C6: save with `overwrite=False` against an existing path -/

/-- C6: for every file system, path at which a file exists, and episode
dictionary, `save_episode` with `overwrite = false` returns failure and
leaves the whole file system (in particular the existing file) exactly
as it was. -/
theorem save_existing_no_overwrite {Img St Ac Fo : Type}
    (fs : FileSystem Img St Ac Fo) (filepath : String)
    (data : EpisodeDict Img St Ac Fo) (f : HFile Img St Ac Fo)
    (h : fs filepath = some f) :
    save_episode fs filepath data false = (false, fs) := by
  simp [save_episode, h]

/-- C6 (witness): the theorem applied to a file system holding a file
at path `"a"`. -/
theorem save_existing_no_overwrite_witness :
    fsWithA "a" = some emptyHFile ∧
    save_episode fsWithA "a" emptyDict false = (false, fsWithA) :=
  ⟨rfl, save_existing_no_overwrite fsWithA "a" emptyDict emptyHFile rfl⟩

/-! ## C7: save/load round trip of an episode with no camera frames -/

/-- C7: an episode with 0 camera frames, 5 pose frames and 5 force
frames saves successfully, the written file contains no image dataset,
and reloading yields exactly 5 pose samples, 5 force samples and an
empty image array (rather than a load failure). -/
theorem save_load_five_pose_force :
    (save_episode emptyFS "p" fivePoseForceEpisode.to_dict false).1 = true ∧
    ((save_episode emptyFS "p" fivePoseForceEpisode.to_dict false).2 "p").map
      HFile.image = some none ∧
    (load_episode (save_episode emptyFS "p" fivePoseForceEpisode.to_dict false).2
      "p").map (fun d => d.state.length) = some 5 ∧
    (load_episode (save_episode emptyFS "p" fivePoseForceEpisode.to_dict false).2
      "p").map (fun d => d.force.length) = some 5 ∧
    (load_episode (save_episode emptyFS "p" fivePoseForceEpisode.to_dict false).2
      "p").map (fun d => d.image) = some [] := by
  refine ⟨rfl, rfl, rfl, rfl, rfl⟩

/-! ## C9: the append operation preserves the length invariant -/

/-- C9: the fresh episode satisfies the per-modality length invariant,
and every `add_frame` preserves it; moreover each append grows the
loop-timestamp list by exactly one and each per-modality data list (and,
through the invariant, its timestamp list) by one exactly when that
modality is present, else zero. -/
theorem episode_append_invariant {Img St Ac Fo : Type} :
    (∀ t : ℚ, EpisodeInv (Episode.init t : Episode Img St Ac Fo)) ∧
    (∀ (e : Episode Img St Ac Fo) (img : Option Img) (st : Option St)
       (ac : Option Ac) (fo : Option Fo) (ts tc tp tf : Option ℚ) (now : ℚ),
      EpisodeInv e →
      EpisodeInv (e.add_frame img st ac fo ts tc tp tf now) ∧
      (e.add_frame img st ac fo ts tc tp tf now).timestamps.length =
        e.timestamps.length + 1 ∧
      (e.add_frame img st ac fo ts tc tp tf now).images.length =
        e.images.length + (if img.isSome then 1 else 0) ∧
      (e.add_frame img st ac fo ts tc tp tf now).states.length =
        e.states.length + (if st.isSome then 1 else 0) ∧
      (e.add_frame img st ac fo ts tc tp tf now).forces.length =
        e.forces.length + (if fo.isSome then 1 else 0) ∧
      (e.add_frame img st ac fo ts tc tp tf now).timestamps_camera.length =
        e.timestamps_camera.length + (if img.isSome then 1 else 0) ∧
      (e.add_frame img st ac fo ts tc tp tf now).timestamps_pose.length =
        e.timestamps_pose.length + (if st.isSome then 1 else 0) ∧
      (e.add_frame img st ac fo ts tc tp tf now).timestamps_force.length =
        e.timestamps_force.length + (if fo.isSome then 1 else 0)) := by
  constructor
  · intro t
    exact ⟨rfl, rfl, rfl, le_rfl, le_rfl, le_rfl⟩
  · intro e img st ac fo ts tc tp tf now hInv
    obtain ⟨h1, h2, h3, h4, h5, h6⟩ := hInv
    rcases img with _ | img <;> rcases st with _ | st <;>
      rcases ac with _ | ac <;> rcases fo with _ | fo <;>
      simp [Episode.add_frame, EpisodeInv] <;>
      omega

/-- C9 (witness): the invariant holds for a fresh episode and is kept
by a concrete append that carries only a pose reading. -/
theorem episode_append_invariant_witness :
    EpisodeInv (Episode.init 0 : Episode ℕ ℕ ℕ ℕ) ∧
    EpisodeInv ((Episode.init 0 : Episode ℕ ℕ ℕ ℕ).add_frame
      none (some 1) none none none none (some 2) none 3) ∧
    ((Episode.init 0 : Episode ℕ ℕ ℕ ℕ).add_frame
      none (some 1) none none none none (some 2) none 3).timestamps.length = 1 :=
  ⟨by decide,
   (episode_append_invariant.2 (Episode.init 0) none (some 1) none none none none
     (some 2) none 3 (by decide)).1,
   (episode_append_invariant.2 (Episode.init 0) none (some 1) none none none none
     (some 2) none 3 (by decide)).2.1⟩

/-! ## C3: where the per-modality acquisition timestamps are taken -/

/-- C3 (counterexample): it is not the case that every modality's
recorded acquisition timestamp is at or after the moment its read call
returns: in the concrete cycle `slowCameraCycle` the camera timestamp
is taken at time 1 but the camera read only returns at time 2. -/
theorem modality_timestamp_counterexample :
    ¬ (∀ c : CycleTrace,
        c.tCamReturn ≤ c.recorded_camera_timestamp ∧
        c.tPoseReturn ≤ c.recorded_pose_timestamp ∧
        c.tForceReturn ≤ c.recorded_force_timestamp) := by
  intro h
  have h1 := (h slowCameraCycle).1
  norm_num [slowCameraCycle, CycleTrace.recorded_camera_timestamp] at h1

/-- C3 (amended): the pose and force acquisition timestamps are taken
when their read calls return; the camera acquisition timestamp is taken
within the cycle after the loop timestamp but immediately *before* the
camera read is issued, hence at or before the read's return. -/
theorem modality_timestamp_order (c : CycleTrace) :
    c.tPoseReturn ≤ c.recorded_pose_timestamp ∧
    c.tForceReturn ≤ c.recorded_force_timestamp ∧
    c.tLoop ≤ c.recorded_camera_timestamp ∧
    c.recorded_camera_timestamp ≤ c.tCamIssue ∧
    c.recorded_camera_timestamp ≤ c.tCamReturn := by
  obtain ⟨o1, o2, o3, o4, o5, o6, o7, o8, o9, o10⟩ := c.order
  exact ⟨o7, o10, o2, o3, le_trans o3 o4⟩

/-! ## C4: replay behaviour at the end of the episode -/

/-- C4: while paused, `update` changes nothing and emits nothing; when a
playing player advances past the last frame with `loop = False` it emits
the final frame, pauses, and clamps the index to `total_frames - 1` (so
all further `update` calls, being in the paused state, leave the index
there and emit nothing); with `loop = True` it instead resets the index
to 0 and the timing anchor to the current clock reading. -/
theorem replay_end_behavior {Img St Ac Fo : Type} :
    (∀ (s : PlayerState Img St Ac Fo) (now now2 : ℚ),
      s.is_playing = false → s.update now now2 = (s, none)) ∧
    (∀ (s : PlayerState Img St Ac Fo) (now now2 : ℚ),
      s.is_playing = true → s.loop = false →
      s.frame_interval ≤ now - s.last_frame_time →
      s.total_frames ≤ s.current_frame + 1 →
      (s.update now now2).1.is_playing = false ∧
      (s.update now now2).1.current_frame = s.total_frames - 1 ∧
      (s.update now now2).2 = some (s.get_frame (s.current_frame : ℤ))) ∧
    (∀ (s : PlayerState Img St Ac Fo) (now now2 : ℚ),
      s.is_playing = true → s.loop = true →
      s.frame_interval ≤ now - s.last_frame_time →
      s.total_frames ≤ s.current_frame + 1 →
      (s.update now now2).1.current_frame = 0 ∧
      (s.update now now2).1.last_frame_time = now2 ∧
      (s.update now now2).2 = some (s.get_frame (s.current_frame : ℤ))) := by
  refine ⟨?_, ?_, ?_⟩
  · intro s now now2 h
    simp [PlayerState.update, h]
  · intro s now now2 hplay hloop hint hend
    simp [PlayerState.update, hplay, hloop, hint, hend]
  · intro s now now2 hplay hloop hint hend
    simp [PlayerState.update, hplay, hloop, hint, hend]

/-- C4 (witness): the theorem applied to concrete two-frame players on
their last frame, and to a paused player. -/
theorem replay_end_behavior_witness :
    threeFramePlayer.update 1 1 = (threeFramePlayer, none) ∧
    (lastFramePlayer.update 5 6).1.is_playing = false ∧
    (lastFramePlayer.update 5 6).1.current_frame = 1 ∧
    (lastFrameLoopPlayer.update 5 6).1.current_frame = 0 ∧
    (lastFrameLoopPlayer.update 5 6).1.last_frame_time = 6 := by
  have hint : lastFramePlayer.frame_interval ≤ 5 - lastFramePlayer.last_frame_time := by
    norm_num [PlayerState.frame_interval, lastFramePlayer]
  have hint2 : lastFrameLoopPlayer.frame_interval ≤
      5 - lastFrameLoopPlayer.last_frame_time := by
    norm_num [PlayerState.frame_interval, lastFrameLoopPlayer, lastFramePlayer]
  refine ⟨replay_end_behavior.1 threeFramePlayer 1 1 rfl,
    (replay_end_behavior.2.1 lastFramePlayer 5 6 rfl rfl hint (by decide)).1,
    (replay_end_behavior.2.1 lastFramePlayer 5 6 rfl rfl hint (by decide)).2.1,
    (replay_end_behavior.2.2 lastFrameLoopPlayer 5 6 rfl rfl hint2 (by decide)).1,
    (replay_end_behavior.2.2 lastFrameLoopPlayer 5 6 rfl rfl hint2 (by decide)).2.1⟩

/-! ## C10: `get_frame` clamps every index into range -/

/-- A lookup into an absent array yields `None` and raises nothing. -/
theorem readField_absent {α : Type} (ok : Bool) (i : ℕ) :
    readField ok (none : Option (List α)) i = (none, ok) := by
  cases ok <;> rfl

/-- A lookup into a present array at an in-range index succeeds. -/
theorem readField_inrange {α : Type} (l : List α) {i : ℕ} (h : i < l.length) :
    readField true (some l) i = (l[i]?, true) := by
  simp [readField, List.getElem?_eq_getElem h]

/-- The success flag survives a lookup into an array that is either
absent or long enough. -/
theorem readField_snd_true {α : Type} {arr : Option (List α)} {i N : ℕ}
    (hi : i < N) (hlen : ∀ l, arr = some l → l.length = N) :
    (readField true arr i).2 = true := by
  cases hA : arr with
  | none => rfl
  | some l =>
      have h := hlen l hA
      rw [readField_inrange l (by omega)]

/-- C10: for a player with `total_frames ≥ 1` whose loaded arrays all
have length `total_frames`, `get_frame` at any integer index — negative
or past the end included — returns the frame at the clamped index
`max 0 (min idx (total-1))`: the reported `frame_idx` is that clamp,
it lies in `[0, total-1]`, and every present modality field holds that
array's entry at the clamped index. -/
theorem get_frame_clamped {Img St Ac Fo : Type}
    (s : PlayerState Img St Ac Fo) (idx : ℤ)
    (hN : 1 ≤ s.total_frames)
    (himg : ∀ l, s.images = some l → l.length = s.total_frames)
    (hst : ∀ l, s.states = some l → l.length = s.total_frames)
    (hac : ∀ l, s.actions = some l → l.length = s.total_frames)
    (hfo : ∀ l, s.forces = some l → l.length = s.total_frames)
    (hts : ∀ l, s.timestamps = some l → l.length = s.total_frames) :
    (s.get_frame idx).frame_idx = clampedIndex s.total_frames idx ∧
    0 ≤ (s.get_frame idx).frame_idx ∧
    (s.get_frame idx).frame_idx < (s.total_frames : ℤ) ∧
    (∀ l, s.images = some l →
      (s.get_frame idx).image = l[(clampedIndex s.total_frames idx).toNat]?) ∧
    (∀ l, s.states = some l →
      (s.get_frame idx).state = l[(clampedIndex s.total_frames idx).toNat]?) ∧
    (∀ l, s.actions = some l →
      (s.get_frame idx).action = l[(clampedIndex s.total_frames idx).toNat]?) ∧
    (∀ l, s.forces = some l →
      (s.get_frame idx).force = l[(clampedIndex s.total_frames idx).toNat]?) ∧
    (∀ l, s.timestamps = some l →
      (s.get_frame idx).timestamp = l[(clampedIndex s.total_frames idx).toNat]?) := by
  have hc0 : 0 ≤ clampedIndex s.total_frames idx := le_max_left _ _
  have hcN : clampedIndex s.total_frames idx < (s.total_frames : ℤ) := by
    have h1 : (1 : ℤ) ≤ (s.total_frames : ℤ) := by exact_mod_cast hN
    have h2 : min idx ((s.total_frames : ℤ) - 1) ≤ (s.total_frames : ℤ) - 1 :=
      min_le_right _ _
    exact max_lt (by omega) (by omega)
  have hiN : (clampedIndex s.total_frames idx).toNat < s.total_frames := by omega
  have ok1 : (readField true s.images (clampedIndex s.total_frames idx).toNat).2 =
      true := readField_snd_true hiN himg
  have ok2 : (readField true s.states (clampedIndex s.total_frames idx).toNat).2 =
      true := readField_snd_true hiN hst
  have ok3 : (readField true s.actions (clampedIndex s.total_frames idx).toNat).2 =
      true := readField_snd_true hiN hac
  have ok4 : (readField true s.forces (clampedIndex s.total_frames idx).toNat).2 =
      true := readField_snd_true hiN hfo
  refine ⟨rfl, hc0, hcN, ?_, ?_, ?_, ?_, ?_⟩
  · intro l hI
    show (readField true s.images (clampedIndex s.total_frames idx).toNat).1 =
      l[(clampedIndex s.total_frames idx).toNat]?
    have h := himg l hI
    rw [hI, readField_inrange l (by omega)]
  · intro l hI
    show (readField
        (readField true s.images (clampedIndex s.total_frames idx).toNat).2
        s.states (clampedIndex s.total_frames idx).toNat).1 =
      l[(clampedIndex s.total_frames idx).toNat]?
    have h := hst l hI
    rw [ok1, hI, readField_inrange l (by omega)]
  · intro l hI
    show (readField (readField
        (readField true s.images (clampedIndex s.total_frames idx).toNat).2
        s.states (clampedIndex s.total_frames idx).toNat).2
        s.actions (clampedIndex s.total_frames idx).toNat).1 =
      l[(clampedIndex s.total_frames idx).toNat]?
    have h := hac l hI
    rw [ok1, ok2, hI, readField_inrange l (by omega)]
  · intro l hI
    show (readField (readField (readField
        (readField true s.images (clampedIndex s.total_frames idx).toNat).2
        s.states (clampedIndex s.total_frames idx).toNat).2
        s.actions (clampedIndex s.total_frames idx).toNat).2
        s.forces (clampedIndex s.total_frames idx).toNat).1 =
      l[(clampedIndex s.total_frames idx).toNat]?
    have h := hfo l hI
    rw [ok1, ok2, ok3, hI, readField_inrange l (by omega)]
  · intro l hI
    show (readField (readField (readField (readField
        (readField true s.images (clampedIndex s.total_frames idx).toNat).2
        s.states (clampedIndex s.total_frames idx).toNat).2
        s.actions (clampedIndex s.total_frames idx).toNat).2
        s.forces (clampedIndex s.total_frames idx).toNat).2
        s.timestamps (clampedIndex s.total_frames idx).toNat).1 =
      l[(clampedIndex s.total_frames idx).toNat]?
    have h := hts l hI
    rw [ok1, ok2, ok3, ok4, hI, readField_inrange l (by omega)]

/-- C10 (witness): the theorem applied to a concrete three-frame player
at the out-of-range indices 5 and -7. -/
theorem get_frame_clamped_witness :
    (threeFramePlayer.get_frame 5).frame_idx = 2 ∧
    (threeFramePlayer.get_frame 5).image = some 5 ∧
    (threeFramePlayer.get_frame (-7)).frame_idx = 0 := by
  have himg : ∀ l, threeFramePlayer.images = some l →
      l.length = threeFramePlayer.total_frames := by
    intro l hl
    rw [show threeFramePlayer.images = some [3, 4, 5] from rfl] at hl
    injection hl with h
    rw [← h]
    rfl
  have hst : ∀ l, threeFramePlayer.states = some l →
      l.length = threeFramePlayer.total_frames := by
    intro l hl
    rw [show threeFramePlayer.states = some [6, 7, 8] from rfl] at hl
    injection hl with h
    rw [← h]
    rfl
  have hac : ∀ l, threeFramePlayer.actions = some l →
      l.length = threeFramePlayer.total_frames := by
    intro l hl
    rw [show threeFramePlayer.actions = (none : Option (List ℕ)) from rfl] at hl
    exact Option.noConfusion hl
  have hfo : ∀ l, threeFramePlayer.forces = some l →
      l.length = threeFramePlayer.total_frames := by
    intro l hl
    rw [show threeFramePlayer.forces = some [9, 10, 11] from rfl] at hl
    injection hl with h
    rw [← h]
    rfl
  have hts : ∀ l, threeFramePlayer.timestamps = some l →
      l.length = threeFramePlayer.total_frames := by
    intro l hl
    rw [show threeFramePlayer.timestamps = some [0, 1, 2] from rfl] at hl
    injection hl with h
    rw [← h]
    rfl
  have H5 := get_frame_clamped threeFramePlayer 5 (by decide) himg hst hac hfo hts
  have H7 := get_frame_clamped threeFramePlayer (-7) (by decide) himg hst hac hfo hts
  refine ⟨?_, ?_, ?_⟩
  · rw [H5.1]
    decide
  · rw [H5.2.2.2.1 [3, 4, 5] rfl]
    decide
  · rw [H7.1]
    decide

/-! ## Helper lemmas for the coordinate transforms -/

open Real in
/-- `arctan2` of a point on the positive x axis. -/
theorem atan2_zero_one : atan2 0 1 = 0 := by
  simp [atan2]

open Real in
/-- `arctan2` of a point on the negative y axis. -/
theorem atan2_neg_one_zero : atan2 (-1) 0 = -(π / 2) := by
  norm_num [atan2]

open Real in
/-- `arctan2 (sin x) (cos x) = x` on the principal branch of `arctan`. -/
theorem atan2_sin_cos {x : ℝ} (h1 : -(π / 2) < x) (h2 : x < π / 2) :
    atan2 (Real.sin x) (Real.cos x) = x := by
  have hc : 0 < Real.cos x := Real.cos_pos_of_mem_Ioo ⟨h1, h2⟩
  rw [atan2, if_pos hc, ← Real.tan_eq_sin_div_cos, Real.arctan_tan h1 h2]

open Real in
/-- The clockwise Z-rotation matrix, evaluated. -/
theorem R_z_90cw_mat_eq :
    R_z_90cw_mat = Matrix.of ![![0, 1, 0], ![-1, 0, 0], ![0, 0, 1]] := by
  unfold R_z_90cw_mat
  ext i j
  fin_cases i <;> fin_cases j <;>
    simp [Matrix.vecHead, Matrix.vecTail, Real.cos_pi_div_two, Real.sin_pi_div_two]

open Real in
/-- The counter-clockwise Z-rotation matrix, evaluated. -/
theorem R_z_90ccw_mat_eq :
    R_z_90ccw_mat = Matrix.of ![![0, -1, 0], ![1, 0, 0], ![0, 0, 1]] := by
  unfold R_z_90ccw_mat
  ext i j
  fin_cases i <;> fin_cases j <;>
    simp [Matrix.vecHead, Matrix.vecTail, Real.cos_pi_div_two, Real.sin_pi_div_two]

/-- The two Z-rotations are mutually inverse matrices. -/
theorem Rz_ccw_mul_cw : R_z_90ccw_mat * R_z_90cw_mat = 1 := by
  rw [R_z_90cw_mat_eq, R_z_90ccw_mat_eq]
  ext i j
  fin_cases i <;> fin_cases j <;>
    simp [Matrix.mul_apply, Fin.sum_univ_three, Matrix.one_apply,
      Matrix.vecHead, Matrix.vecTail]

/-- `euler_to_matrix` at zero angles is the identity. -/
theorem euler_to_matrix_zero : euler_to_matrix 0 0 0 = 1 := by
  unfold euler_to_matrix
  ext i j
  fin_cases i <;> fin_cases j <;>
    simp [Matrix.mul_apply, Fin.sum_univ_three, Matrix.one_apply,
      Matrix.vecHead, Matrix.vecTail]

open Real in
/-- `matrix_to_euler` of the identity matrix. -/
theorem matrix_to_euler_one :
    matrix_to_euler (1 : Matrix (Fin 3) (Fin 3) ℝ) = (0, 0, 0) := by
  unfold matrix_to_euler
  norm_num [Matrix.one_apply, eulerSingularEps, atan2_zero_one, Fin.ext_iff]

open Real in
/-- `matrix_to_euler` of the clockwise Z-rotation: roll 0, pitch 0,
yaw `-π/2`. -/
theorem matrix_to_euler_cw : matrix_to_euler R_z_90cw_mat = (0, 0, -(π / 2)) := by
  rw [R_z_90cw_mat_eq]
  unfold matrix_to_euler
  norm_num [Matrix.vecHead, Matrix.vecTail, eulerSingularEps,
    atan2_zero_one, atan2_neg_one_zero]

/-! ## C2: the first post-warm-up action appended to the episode -/

open Real in
/-- C2 (counterexample): the action derived for the first valid pose
reading after warm-up and placed in `frame_data` is the *frame-rotated*
zero-delta vector, whose sixth component (yaw) is `-π/2`, not zero: at
the concrete pose `c2pose` the appended action's yaw misses 0 by far
more than any floating-point tolerance (`π/2 > 10⁻⁶`). -/
theorem first_action_counterexample :
    collector_first_action c2pose 5 = -(π / 2) ∧
    1 / 1000000 < |collector_first_action c2pose 5 - 0| := by
  have hkey : matrix_to_euler (R_z_90cw_mat * euler_to_matrix 0 0 0) =
      (0, 0, -(π / 2)) := by
    rw [euler_to_matrix_zero, mul_one, matrix_to_euler_cw]
  have h5 : collector_first_action c2pose 5 = -(π / 2) := by
    simp only [collector_first_action, rotate_to_force_frame, rotate_frame_z_90_cw]
    rw [show (if ((3 : Fin 7) : ℕ) < 6 then (0 : ℝ) else c2pose 3) = 0 from rfl,
      show (if ((4 : Fin 7) : ℕ) < 6 then (0 : ℝ) else c2pose 4) = 0 from rfl,
      show (if ((5 : Fin 7) : ℕ) < 6 then (0 : ℝ) else c2pose 5) = 0 from rfl,
      hkey]
    rfl
  refine ⟨h5, ?_⟩
  rw [h5]
  rw [show -(π / 2) - 0 = -(π / 2) by ring, abs_neg, abs_of_pos (by positivity)]
  nlinarith [Real.pi_gt_three]

open Real in
/-- C2 (amended): for every pose reading that becomes the reference,
the appended action is the fixed clockwise frame rotation applied to
the zero-delta/absolute-gripper vector: its position deltas and its
roll and pitch are exactly zero, its yaw is `-π/2` (the -90° mounting
alignment), and its seventh component is exactly the pose's
instantaneous gripper value.  The reading itself becomes the reference
pose. -/
theorem first_action_rotated_zero_delta (state : Pose7) :
    collector_first_action state = ![0, 0, 0, 0, 0, -(π / 2), state 6] ∧
    (compute_action false none state).1 = some state ∧
    (compute_action false none state).2 = some (collector_first_action state) := by
  have hkey : matrix_to_euler (R_z_90cw_mat * euler_to_matrix 0 0 0) =
      (0, 0, -(π / 2)) := by
    rw [euler_to_matrix_zero, mul_one, matrix_to_euler_cw]
  refine ⟨?_, rfl, rfl⟩
  simp only [collector_first_action, rotate_to_force_frame, rotate_frame_z_90_cw]
  rw [show (if ((0 : Fin 7) : ℕ) < 6 then (0 : ℝ) else state 0) = 0 from rfl,
    show (if ((1 : Fin 7) : ℕ) < 6 then (0 : ℝ) else state 1) = 0 from rfl,
    show (if ((2 : Fin 7) : ℕ) < 6 then (0 : ℝ) else state 2) = 0 from rfl,
    show (if ((3 : Fin 7) : ℕ) < 6 then (0 : ℝ) else state 3) = 0 from rfl,
    show (if ((4 : Fin 7) : ℕ) < 6 then (0 : ℝ) else state 4) = 0 from rfl,
    show (if ((5 : Fin 7) : ℕ) < 6 then (0 : ℝ) else state 5) = 0 from rfl,
    show (if ((6 : Fin 7) : ℕ) < 6 then (0 : ℝ) else state 6) = state 6 from rfl,
    hkey, neg_zero]

/-! ## C8: the two frame rotations as mutual inverses -/

/-- Component 0 of a 7-vector literal. -/
theorem vecSeven_zero {α : Type} (a0 a1 a2 a3 a4 a5 a6 : α) :
    ![a0, a1, a2, a3, a4, a5, a6] 0 = a0 := rfl

/-- Component 1 of a 7-vector literal. -/
theorem vecSeven_one {α : Type} (a0 a1 a2 a3 a4 a5 a6 : α) :
    ![a0, a1, a2, a3, a4, a5, a6] 1 = a1 := rfl

/-- Component 2 of a 7-vector literal. -/
theorem vecSeven_two {α : Type} (a0 a1 a2 a3 a4 a5 a6 : α) :
    ![a0, a1, a2, a3, a4, a5, a6] 2 = a2 := rfl

/-- Component 3 of a 7-vector literal. -/
theorem vecSeven_three {α : Type} (a0 a1 a2 a3 a4 a5 a6 : α) :
    ![a0, a1, a2, a3, a4, a5, a6] 3 = a3 := rfl

/-- Component 4 of a 7-vector literal. -/
theorem vecSeven_four {α : Type} (a0 a1 a2 a3 a4 a5 a6 : α) :
    ![a0, a1, a2, a3, a4, a5, a6] 4 = a4 := rfl

/-- Component 5 of a 7-vector literal. -/
theorem vecSeven_five {α : Type} (a0 a1 a2 a3 a4 a5 a6 : α) :
    ![a0, a1, a2, a3, a4, a5, a6] 5 = a5 := rfl

/-- Component 6 of a 7-vector literal. -/
theorem vecSeven_six {α : Type} (a0 a1 a2 a3 a4 a5 a6 : α) :
    ![a0, a1, a2, a3, a4, a5, a6] 6 = a6 := rfl

open Real in
/-- `euler_to_matrix` with zero pitch and yaw is the pure X-rotation. -/
theorem euler_to_matrix_roll (r : ℝ) :
    euler_to_matrix r 0 0 =
      Matrix.of ![![1, 0, 0], ![0, Real.cos r, -Real.sin r],
                  ![0, Real.sin r, Real.cos r]] := by
  unfold euler_to_matrix
  ext i j
  fin_cases i <;> fin_cases j <;>
    simp [Matrix.mul_apply, Fin.sum_univ_three, Matrix.vecHead, Matrix.vecTail]

open Real in
/-- `euler_to_matrix` with zero pitch and yaw `-π/2`. -/
theorem euler_to_matrix_roll_yawneg (r : ℝ) :
    euler_to_matrix r 0 (-(π / 2)) =
      Matrix.of ![![0, Real.cos r, -Real.sin r], ![-1, 0, 0],
                  ![0, Real.sin r, Real.cos r]] := by
  unfold euler_to_matrix
  ext i j
  fin_cases i <;> fin_cases j <;>
    simp [Matrix.mul_apply, Fin.sum_univ_three, Matrix.vecHead, Matrix.vecTail,
      Real.cos_pi_div_two, Real.sin_pi_div_two]

open Real in
/-- The clockwise Z-rotation applied to a pure X-rotation. -/
theorem cw_mul_rx (r : ℝ) :
    R_z_90cw_mat * euler_to_matrix r 0 0 =
      Matrix.of ![![0, Real.cos r, -Real.sin r], ![-1, 0, 0],
                  ![0, Real.sin r, Real.cos r]] := by
  rw [R_z_90cw_mat_eq, euler_to_matrix_roll]
  ext i j
  fin_cases i <;> fin_cases j <;>
    simp [Matrix.mul_apply, Fin.sum_univ_three, Matrix.vecHead, Matrix.vecTail]

open Real in
/-- The counter-clockwise Z-rotation undoes the clockwise one on the
rotated X-rotation. -/
theorem ccw_mul_mid (r : ℝ) :
    R_z_90ccw_mat *
      Matrix.of ![![0, Real.cos r, -Real.sin r], ![-1, 0, 0],
                  ![0, Real.sin r, Real.cos r]] =
      Matrix.of ![![1, 0, 0], ![0, Real.cos r, -Real.sin r],
                  ![0, Real.sin r, Real.cos r]] := by
  rw [R_z_90ccw_mat_eq]
  ext i j
  fin_cases i <;> fin_cases j <;>
    simp [Matrix.mul_apply, Fin.sum_univ_three, Matrix.vecHead, Matrix.vecTail]

open Real in
/-- `matrix_to_euler` of the clockwise-rotated X-rotation. -/
theorem matrix_to_euler_mid (r : ℝ) :
    matrix_to_euler
      (Matrix.of ![![0, Real.cos r, -Real.sin r], ![-1, 0, 0],
                   ![0, Real.sin r, Real.cos r]]) =
      (atan2 (Real.sin r) (Real.cos r), 0, -(π / 2)) := by
  unfold matrix_to_euler
  norm_num [Matrix.vecHead, Matrix.vecTail, eulerSingularEps, atan2_zero_one,
    atan2_neg_one_zero]

open Real in
/-- `matrix_to_euler` of a pure X-rotation. -/
theorem matrix_to_euler_rx (r : ℝ) :
    matrix_to_euler
      (Matrix.of ![![1, 0, 0], ![0, Real.cos r, -Real.sin r],
                   ![0, Real.sin r, Real.cos r]]) =
      (atan2 (Real.sin r) (Real.cos r), 0, 0) := by
  unfold matrix_to_euler
  norm_num [Matrix.vecHead, Matrix.vecTail, eulerSingularEps, atan2_zero_one]

open Real in
/-- C8 (counterexample): at the pose `c8pose` — roll 7 rad, outside the
principal range `(-π, π]`, with a non-singular orientation —
`rotate_frame_z_90_ccw (rotate_frame_z_90_cw p)` returns roll
`7 - 2π`, which differs from the original roll by `2π`, far beyond the
claimed `10⁻⁶` orientation tolerance. -/
theorem rotate_roundtrip_counterexample :
    rotate_frame_z_90_ccw (rotate_frame_z_90_cw c8pose true) true 3 = 7 - 2 * π ∧
    1 / 1000000 <
      |rotate_frame_z_90_ccw (rotate_frame_z_90_cw c8pose true) true 3 - c8pose 3| := by
  have hb1 : -(π / 2) < 7 - 2 * π := by nlinarith [Real.pi_lt_four]
  have hb2 : 7 - 2 * π < π / 2 := by nlinarith [Real.pi_gt_three]
  have h7 : atan2 (Real.sin 7) (Real.cos 7) = 7 - 2 * π := by
    rw [show (7 : ℝ) = 7 - 2 * π + 2 * π by ring]
    rw [show (7 : ℝ) - 2 * π + 2 * π - 2 * π = 7 - 2 * π by ring]
    rw [← Real.sin_sub_two_pi, ← Real.cos_sub_two_pi]
    rw [show (7 : ℝ) - 2 * π + 2 * π - 2 * π = 7 - 2 * π by ring]
    exact atan2_sin_cos hb1 hb2
  have he1 : matrix_to_euler (R_z_90cw_mat *
      euler_to_matrix (c8pose 3) (c8pose 4) (c8pose 5)) =
      (7 - 2 * π, 0, -(π / 2)) := by
    rw [show c8pose 3 = 7 from rfl, show c8pose 4 = 0 from rfl,
      show c8pose 5 = 0 from rfl, cw_mul_rx, matrix_to_euler_mid, h7]
  have hall : rotate_frame_z_90_ccw (rotate_frame_z_90_cw c8pose true) true 3 =
      7 - 2 * π := by
    simp only [rotate_frame_z_90_ccw, rotate_frame_z_90_cw, vecSeven_zero,
      vecSeven_one, vecSeven_two, vecSeven_three, vecSeven_four, vecSeven_five,
      vecSeven_six]
    rw [he1]
    rw [euler_to_matrix_roll_yawneg, Real.cos_sub_two_pi, Real.sin_sub_two_pi,
      ccw_mul_mid, matrix_to_euler_rx, h7]
  refine ⟨hall, ?_⟩
  rw [hall, show c8pose 3 = 7 from rfl]
  rw [show (7 : ℝ) - 2 * π - 7 = -(2 * π) by ring, abs_neg,
    abs_of_pos (by positivity)]
  nlinarith [Real.pi_gt_three]

/-- C8 (amended): over the reals the round trip
`rotate_frame_z_90_ccw ∘ rotate_frame_z_90_cw` restores the pose
*exactly* — position and gripper always, orientation whenever the
pose's Euler angles survive the Euler↔matrix round trips (as principal-
range angles do); for angles outside the principal ranges the round
trip returns the equivalent principal-range angles instead, as the
counterexample shows. -/
theorem rotate_cw_ccw_roundtrip (p : Pose7)
    (hrec : euler_to_matrix3 (matrix_to_euler (R_z_90cw_mat *
        euler_to_matrix (p 3) (p 4) (p 5))) =
      R_z_90cw_mat * euler_to_matrix (p 3) (p 4) (p 5))
    (hcan : matrix_to_euler (euler_to_matrix (p 3) (p 4) (p 5)) = (p 3, p 4, p 5)) :
    rotate_frame_z_90_ccw (rotate_frame_z_90_cw p true) true = p := by
  have key : matrix_to_euler (R_z_90ccw_mat * euler_to_matrix
      (matrix_to_euler (R_z_90cw_mat * euler_to_matrix (p 3) (p 4) (p 5))).1
      (matrix_to_euler (R_z_90cw_mat * euler_to_matrix (p 3) (p 4) (p 5))).2.1
      (matrix_to_euler (R_z_90cw_mat * euler_to_matrix (p 3) (p 4) (p 5))).2.2) =
      (p 3, p 4, p 5) := by
    rw [show euler_to_matrix
        (matrix_to_euler (R_z_90cw_mat * euler_to_matrix (p 3) (p 4) (p 5))).1
        (matrix_to_euler (R_z_90cw_mat * euler_to_matrix (p 3) (p 4) (p 5))).2.1
        (matrix_to_euler (R_z_90cw_mat * euler_to_matrix (p 3) (p 4) (p 5))).2.2 =
      euler_to_matrix3 (matrix_to_euler (R_z_90cw_mat *
        euler_to_matrix (p 3) (p 4) (p 5))) from rfl]
    rw [hrec, ← mul_assoc, Rz_ccw_mul_cw, one_mul, hcan]
  simp only [rotate_frame_z_90_ccw, rotate_frame_z_90_cw, vecSeven_zero,
    vecSeven_one, vecSeven_two, vecSeven_three, vecSeven_four, vecSeven_five,
    vecSeven_six]
  rw [key]
  funext i
  fin_cases i <;>
    simp [vecSeven_zero, vecSeven_one, vecSeven_two, vecSeven_three,
      vecSeven_four, vecSeven_five, vecSeven_six]

open Real in
/-- C8 (witness): the round-trip theorem applied at the concrete pose
`c8witnessPose` (principal-range zero angles), with both hypotheses
discharged by evaluation. -/
theorem rotate_cw_ccw_roundtrip_witness :
    (euler_to_matrix3 (matrix_to_euler (R_z_90cw_mat *
        euler_to_matrix (c8witnessPose 3) (c8witnessPose 4) (c8witnessPose 5))) =
      R_z_90cw_mat *
        euler_to_matrix (c8witnessPose 3) (c8witnessPose 4) (c8witnessPose 5)) ∧
    (matrix_to_euler
        (euler_to_matrix (c8witnessPose 3) (c8witnessPose 4) (c8witnessPose 5)) =
      (c8witnessPose 3, c8witnessPose 4, c8witnessPose 5)) ∧
    rotate_frame_z_90_ccw (rotate_frame_z_90_cw c8witnessPose true) true =
      c8witnessPose := by
  have hz3 : c8witnessPose 3 = 0 := rfl
  have hz4 : c8witnessPose 4 = 0 := rfl
  have hz5 : c8witnessPose 5 = 0 := rfl
  have hmat : euler_to_matrix 0 0 (-(π / 2)) = R_z_90cw_mat := by
    rw [euler_to_matrix_roll_yawneg 0, R_z_90cw_mat_eq]
    norm_num
  have h1 : euler_to_matrix3 (matrix_to_euler (R_z_90cw_mat *
      euler_to_matrix (c8witnessPose 3) (c8witnessPose 4) (c8witnessPose 5))) =
      R_z_90cw_mat *
        euler_to_matrix (c8witnessPose 3) (c8witnessPose 4) (c8witnessPose 5) := by
    rw [hz3, hz4, hz5, euler_to_matrix_zero, mul_one, matrix_to_euler_cw]
    exact hmat
  have h2 : matrix_to_euler
      (euler_to_matrix (c8witnessPose 3) (c8witnessPose 4) (c8witnessPose 5)) =
      (c8witnessPose 3, c8witnessPose 4, c8witnessPose 5) := by
    rw [hz3, hz4, hz5, euler_to_matrix_zero, matrix_to_euler_one]
  exact ⟨h1, h2, rotate_cw_ccw_roundtrip c8witnessPose h1 h2⟩

end ForceUMI
